import Mathlib

/-!
Shallow embedding of the core of the reaper package manager
(src/core.rs): source resolution (resolve_package_source), the tap
verification gate inside install_with_priority, the native AUR build
pipeline (install_aur_native), and the bulk install orchestration
(parallel_install / parallel_upgrade).

External collaborators — the tap registry (crate::tap), the AUR index
(crate::aur), subprocess outcomes (git, gpg, pacman, makepkg, flatpak)
and the filesystem — are modelled as oracles supplied through
environment records.  Each embedded function returns the trace of
observable actions the Rust code performs, in program order.  Console
println output and ANSI colour codes are display-only and elided; log
lines pushed to the shared LogPane are kept verbatim, except that
terminal colour escapes, timestamps, elapsed times, filesystem paths
interpolated into purely informational lines, and quote characters
around interpolated names are elided.
-/

namespace Reap

/-- Modelled from the spec: the tap registry (crate::tap) is not under
src/.  A Tap carries the fields the core reads: its unique name and its
integer priority (higher preferred). -/
structure Tap where
  name : String
  priority : Nat
  deriving DecidableEq

/-- The Source enum of src/core.rs. -/
inductive Source where
  | Aur
  | Flatpak
  | Pacman
  | ChaoticAUR
  | GhostctlAUR
  | BinaryRepo (repo : String)
  | Custom (tap : String)
  deriving DecidableEq

/-- Source::label from src/core.rs. -/
def Source.label : Source → String
  | .Aur => "[AUR]"
  | .Pacman => "[PACMAN]"
  | .Flatpak => "[FLATPAK]"
  | .ChaoticAUR => "[CHAOTIC-AUR]"
  | .GhostctlAUR => "[GHOSTCTL-AUR]"
  | .BinaryRepo _ => "[BINREPO]"
  | .Custom _ => "[CUSTOM]"

/-- InstallOptions from src/core.rs.  usize is modelled as Nat. -/
structure InstallOptions where
  insecure : Bool
  gpg_keyserver : Option String
  fast_mode : Bool
  strict_signatures : Bool
  max_parallel : Nat
  deriving DecidableEq

/-- InstallOptions::default() (derive(Default): false / None / 0). -/
def InstallOptions.default : InstallOptions :=
  { insecure := false, gpg_keyserver := none, fast_mode := false,
    strict_signatures := false, max_parallel := 0 }

/-- Modelled from the spec: GlobalConfig (crate::config) is not under
src/; the resolver reads only its ordered backend list. -/
structure GlobalConfig where
  backend_order : List String

/-- Oracle for the external queries resolve_package_source makes, per
package: find_tap_for_pkg (crate::tap, not under src/; it respects the
forced tap argument internally), repo_has_package (a pacman -Slq
subprocess, per (pkg, repo)), the exact-name hit in
aur::aur_search_results, and a successful non-empty flatpak search. -/
structure ResolveEnv where
  found_tap : String → Option String → Option Tap
  repo_has_package : String → String → Bool
  aur_has_exact : String → Bool
  flatpak_search_hit : String → Bool

/-- resolve_package_source from src/core.rs (lines 141-181): taps
first, then the official pacman repos core/extra at priority 20, then
the AUR at priority 10, then flatpak at priority 1, each repo/AUR/
flatpak step gated on membership of its backend name in
config.backend_order. -/
def resolve_package_source (env : ResolveEnv) (pkg : String)
    (forced_tap : Option String) (config : GlobalConfig) :
    Option (Source × Option String × Nat × Option Tap) :=
  match env.found_tap pkg forced_tap with
  | some tap => some (Source.Custom tap.name, some tap.name, tap.priority, some tap)
  | none =>
    if config.backend_order.contains "pacman"
        && (env.repo_has_package pkg "core" || env.repo_has_package pkg "extra") then
      some (Source.Pacman, none, 20, none)
    else if config.backend_order.contains "aur" && env.aur_has_exact pkg then
      some (Source.Aur, none, 10, none)
    else if config.backend_order.contains "flatpak" && env.flatpak_search_hit pkg then
      some (Source.Flatpak, none, 1, none)
    else
      none

/-- Modelled from the spec: the resolver algorithm as the spec and
claim C2 word it — candidates evaluated in the fixed order tap,
official repos, AUR, Flatpak, returning the first hit, with the
official/AUR/Flatpak steps gated on the configured backend order. -/
def resolve_package_source_spec (env : ResolveEnv) (pkg : String)
    (forced_tap : Option String) (config : GlobalConfig) :
    Option (Source × Option String × Nat × Option Tap) :=
  match env.found_tap pkg forced_tap with
  | some tap => some (Source.Custom tap.name, some tap.name, tap.priority, some tap)
  | none =>
    if "pacman" ∈ config.backend_order
        ∧ (env.repo_has_package pkg "core" = true ∨ env.repo_has_package pkg "extra" = true) then
      some (Source.Pacman, none, 20, none)
    else if "aur" ∈ config.backend_order ∧ env.aur_has_exact pkg = true then
      some (Source.Aur, none, 10, none)
    else if "flatpak" ∈ config.backend_order ∧ env.flatpak_search_hit pkg = true then
      some (Source.Flatpak, none, 1, none)
    else
      none

/-- PublisherInfo returned by crate::tap::get_publisher_info: display
name, gpg key string, verified flag. -/
structure PublisherInfo where
  name : String
  gpg_key : String
  verified : Bool
  deriving DecidableEq

/-- Observable actions of install_with_priority, in program order.
logLine is a push to the shared LogPane; preHook / postHook are the
pre_install / post_install hook invocations; pacmanInstall, aurInstall
and flatpakInstall are the calls into pacman::install,
install_aur_native and flatpak::install_flatpak; rollback is
crate::utils::rollback; backup is the call to backup_package_state;
showDiff is the call to show_pkgbuild_diff. -/
inductive Event where
  | logLine (s : String)
  | preHook
  | postHook
  | ensureTapCloned
  | gpgListKeys
  | gpgRecvKeys
  | gpgVerify
  | pacmanInstall (pkg : String)
  | aurInstall (pkg : String)
  | flatpakInstall (pkg : String)
  | rollback (pkg : String)
  | backup (pkg : String)
  | showDiff (pkg : String)
  deriving DecidableEq

/-- Events that invoke a build or install backend — the steps that can
mutate system state (pacman::install, install_aur_native,
flatpak::install_flatpak). -/
def Event.isInstallStep : Event → Bool
  | .pacmanInstall _ => true
  | .aurInstall _ => true
  | .flatpakInstall _ => true
  | _ => false

/-- Rust pubinfo.gpg_key.split_whitespace().last().unwrap_or(""),
implemented over the character list so it evaluates by kernel
reduction. -/
def lastWord (s : String) : String :=
  ⟨(((s.data.splitOnP fun c => c.isWhitespace).filter fun w => !w.isEmpty).getLastD [])⟩

/-- Oracle for the external effects of the tap verification block of
install_with_priority: publisher info from the tap registry, existence
of PKGBUILD / PKGBUILD.sig in the tap clone, whether the publisher key
is already in the gpg keyring, the outcome of gpg --recv-keys, and the
outcome of gpg --verify (none models an Err from spawning gpg, which
the code handles exactly like a failed verification). -/
structure TapVerifyEnv where
  pubinfo : Option PublisherInfo
  sig_exists : Bool
  pkgb_exists : Bool
  key_present : Bool
  recv_ok : Bool
  verify_result : Option Bool

/-- The Source::Custom arm of install_with_priority (src/core.rs lines
262-387): publisher display, key import, PKGBUILD.sig verification.
Returns the emitted events and whether control continues past the arm
(false models the early return from install_with_priority).  Note the
arm contains no build or install invocation: after verification it
falls through to the comment "...proceed with install if verified or
--insecure..." with no install code following. -/
def tapVerify (tap : Tap) (env : TapVerifyEnv) (opts : InstallOptions) :
    List Event × Bool :=
  match env.pubinfo with
  | some pubinfo =>
    let keyid := lastWord pubinfo.gpg_key
    let header : List Event :=
      [Event.logLine ("👤 " ++ tap.name ++ " from " ++ pubinfo.name ++ " " ++
          (if pubinfo.verified then "[✓ Verified GPG]" else "[Unverified]")),
        Event.logLine ("🔑 GPG Key: " ++ keyid),
        Event.gpgListKeys]
    let importEvts : List Event :=
      if !env.key_present then
        [Event.logLine ("[reap][gpg] Importing publisher key " ++ keyid ++ " from " ++
            (opts.gpg_keyserver.getD "hkps://keys.openpgp.org") ++ "..."),
          Event.gpgRecvKeys,
          Event.logLine (if env.recv_ok then "[reap][gpg] ✓ Successfully imported " ++ keyid
            else "[reap][gpg] ❌ Failed to import publisher key " ++ keyid)]
      else []
    if env.sig_exists && env.pkgb_exists then
      match env.verify_result with
      | some true =>
        (header ++ importEvts ++
          [Event.gpgVerify, Event.logLine "✓ PKGBUILD signature verified"], true)
      | some false =>
        let failLog := [Event.gpgVerify,
          Event.logLine ("❌ Verification failed for PKGBUILD.sig (key: " ++ keyid ++ ")")]
        if !opts.insecure then
          (header ++ importEvts ++ failLog ++
            [Event.logLine "✋ Aborting install. Use --insecure to override."], false)
        else
          (header ++ importEvts ++ failLog ++
            [Event.logLine "⚠️ Continuing install due to --insecure."], true)
      | none =>
        let failLog := [Event.gpgVerify,
          Event.logLine ("❌ Verification failed for PKGBUILD.sig (key: " ++ keyid ++ ")")]
        if !opts.insecure then
          (header ++ importEvts ++ failLog ++
            [Event.logLine "✋ Aborting install. Use --insecure to override."], false)
        else
          (header ++ importEvts ++ failLog ++
            [Event.logLine "⚠️ Continuing install due to --insecure."], true)
    else
      let missingLog :=
        [Event.logLine "❌ PKGBUILD.sig missing. Aborting install. Use --insecure to override."]
      if !opts.insecure then
        (header ++ importEvts ++ missingLog, false)
      else
        (header ++ importEvts ++ missingLog ++
          [Event.logLine "⚠️ Continuing install due to --insecure."], true)
  | none =>
    let warn :=
      [Event.logLine "⚠️ Warning: Tap publisher not verified. Installing with --insecure."]
    if !opts.insecure then (warn, false) else (warn, true)

/-- Environment of one install_with_priority run: the resolver oracle,
the loaded GlobalConfig, the tap verification oracle, and whether
backup_package_state returns Ok. -/
structure InstallEnv where
  renv : ResolveEnv
  config : GlobalConfig
  tapenv : TapVerifyEnv
  backup_ok : Bool

/-- install_with_priority from src/core.rs (lines 184-446), as the
trace of its observable actions.  Fidelity notes: the function calls
resolve_package_source with forced_tap None; an early return from the
tap verification arm skips the post-install hooks AND the trailing
backup_package_state / show_pkgbuild_diff calls, which sit at the very
end of the function body (after the install and the post-install
hooks) and also run on the resolution-failure path. -/
def install_with_priority (env : InstallEnv) (pkg : String)
    (opts : InstallOptions) : List Event :=
  let pre : List Event :=
    [Event.logLine ("🔧 pre_install executing for " ++ pkg), Event.preHook]
  let tail : List Event :=
    Event.backup pkg ::
      ((if env.backup_ok then
          [Event.logLine "[reap][backup] State backed up to (backup dir)"]
        else []) ++ [Event.showDiff pkg])
  match resolve_package_source env.renv pkg none env.config with
  | some (source, tap_name, prio, tap_obj) =>
    let resLog := Event.logLine ("[reap][priority] Resolved source for " ++ pkg ++ ": " ++
      source.label ++ tap_name.getD "" ++ " (priority " ++ toString prio ++ ")")
    let step : List Event × Bool :=
      match source, tap_obj with
      | Source.Custom _, some tap =>
        let v := tapVerify tap env.tapenv opts
        (Event.ensureTapCloned :: v.1, v.2)
      | Source.Custom _, none => ([], true)
      | Source.Pacman, _ =>
        ([Event.logLine ("[reap][pacman] Installing " ++ pkg ++ " from repo"),
          Event.pacmanInstall pkg,
          Event.logLine ("[✓] Installed " ++ pkg ++ " from Pacman")], true)
      | Source.Aur, _ =>
        ([Event.logLine ("[reap][aur] Installing " ++ pkg ++ " from AUR"),
          Event.aurInstall pkg,
          Event.logLine ("[✓] Installed " ++ pkg ++ " from AUR")], true)
      | Source.Flatpak, _ =>
        ([Event.logLine ("[reap][flatpak] Installing " ++ pkg ++ " from Flatpak"),
          Event.flatpakInstall pkg], true)
      | _, _ => ([Event.logLine ("[!] Unknown source for " ++ pkg)], true)
    if step.2 then
      pre ++ resLog :: step.1 ++
        [Event.logLine ("[reap][hook] post_install executing for " ++ pkg),
          Event.postHook,
          Event.logLine ("[reap][timing] install_with_priority for " ++ pkg ++
            " took: (elapsed)")] ++ tail
    else
      pre ++ resLog :: step.1
  | none =>
    pre ++
      [Event.logLine ("[reap][error] " ++ ("Could not resolve source for " ++ pkg)),
        Event.rollback pkg] ++ tail

/-- Custom error type ReapError of src/core.rs; the wrapped io::Error
payload of Io is elided. -/
inductive ReapError where
  | CommandFailed (msg : String)
  | Io
  deriving DecidableEq

deriving instance DecidableEq for Except

/-- Observable actions of install_aur_native: log lines, the git
clone, the editor launch, the makepkg run, and the
fs::remove_dir_all(&build_dir) working-directory cleanup. -/
inductive AEvent where
  | logLine (s : String)
  | gitClone
  | editorRun
  | makepkgRun
  | removeBuildDir
  deriving DecidableEq

/-- Oracle for the subprocess / filesystem effects of
install_aur_native.  For each subprocess, none models an Err from
spawning it and some b an exit with success = b.  cleanup_result is
the outcome of fs::remove_dir_all(&build_dir); the code discards it
with a wildcard binding, so it is never consulted. -/
structure AurEnv where
  clone_result : Option Bool
  editor_result : Option Bool
  makepkg_result : Option Bool
  cleanup_result : Option Bool
  deriving DecidableEq

/-- install_aur_native from src/core.rs (lines 847-978): fetch (git
clone), optional edit and dry-run under opts.insecure, makepkg build,
cleanup.  Returns the Rust function result paired with the trace.
Streamed per-line clone/build output and the timestamp prefix of each
log line are elided; the step tag is kept. -/
def install_aur_native (env : AurEnv) (pkg : String)
    (opts : InstallOptions) : Except ReapError Unit × List AEvent :=
  let fetchLog := AEvent.logLine ("[reap][aur][fetch] Fetching PKGBUILD for " ++ pkg)
  match env.clone_result with
  | none =>
    (Except.error ReapError.Io,
      [fetchLog, AEvent.gitClone,
        AEvent.logLine ("[reap][aur][clone] ❌ Failed to run git clone for " ++ pkg)])
  | some false =>
    (Except.error (ReapError.CommandFailed "git clone failed"),
      [fetchLog, AEvent.gitClone,
        AEvent.logLine ("[reap][aur][clone] ❌ Failed to clone repo for " ++ pkg)])
  | some true =>
    let editEvts : List AEvent :=
      if opts.insecure then
        [AEvent.logLine "[reap][aur][edit] Editing PKGBUILD", AEvent.editorRun,
          AEvent.logLine (match env.editor_result with
            | some true => "[reap][aur][edit] PKGBUILD edited successfully."
            | some false => "[reap][aur][edit] Editor exited with error status."
            | none => "[reap][aur][edit] Failed to launch editor")]
      else []
    if opts.insecure then
      (Except.ok (),
        [fetchLog, AEvent.gitClone] ++ editEvts ++
          [AEvent.logLine ("[reap][aur][dry-run] Would build and install: " ++ pkg),
            AEvent.removeBuildDir,
            AEvent.logLine "[reap][aur][cleanup] Cleaned up (build dir)"])
    else
      let buildPre := [fetchLog, AEvent.gitClone] ++ editEvts ++
        [AEvent.logLine ("[reap][aur][build] Running makepkg for " ++ pkg),
          AEvent.makepkgRun]
      match env.makepkg_result with
      | some true =>
        (Except.ok (),
          buildPre ++
            [AEvent.logLine ("[reap][aur][install] ✅ " ++ pkg ++ " installed successfully!"),
              AEvent.removeBuildDir,
              AEvent.logLine "[reap][aur][cleanup] Cleaned up (build dir)"])
      | some false =>
        (Except.error (ReapError.CommandFailed "makepkg failed"),
          buildPre ++ [AEvent.logLine ("[reap][aur][install] ❌ makepkg failed for " ++ pkg)])
      | none =>
        (Except.error ReapError.Io,
          buildPre ++
            [AEvent.logLine ("[reap][aur][install] ❌ Failed to run makepkg for " ++ pkg)])

/-- parallel_install hardcodes let max_parallel = 4 (src/core.rs line
491); the installer options are not consulted for the bound. -/
def parallel_install_max_parallel : Nat := 4

/-- parallel_install guards each spawned task with a permit from
Semaphore::new(parallel_install_max_parallel). -/
def parallel_install_cap (_pkgs : List String) : Option Nat :=
  some parallel_install_max_parallel

/-- parallel_upgrade (src/core.rs lines 508-520) spawns one task per
package with no semaphore at all. -/
def parallel_upgrade_cap (_pkgs : List String) : Option Nat := none

/-- Both bulk installers pass InstallOptions::default() to every
install_with_priority task. -/
def bulk_task_opts : InstallOptions := InstallOptions.default

/-- Abstract state of a bulk install run: tasks not yet started and
tasks currently running. -/
structure SchedState where
  pending : Nat
  running : Nat
  deriving DecidableEq

/-- One scheduler transition of a bulk install run whose tasks are
gated by a counting semaphore of capacity cap (cap = none models the
absence of a semaphore): a pending task may start only when the
running count is below the capacity, and a running task may finish at
any time.  There is no cancellation transition: one task finishing or
failing never removes another. -/
inductive SchedStep (cap : Option Nat) : SchedState → SchedState → Prop where
  | start (p r : Nat) (h : ∀ c, cap = some c → r < c) :
      SchedStep cap ⟨p + 1, r⟩ ⟨p, r + 1⟩
  | finish (p r : Nat) : SchedStep cap ⟨p, r + 1⟩ ⟨p, r⟩

/-- Reachability in the bulk-install scheduler model. -/
abbrev SchedReachable (cap : Option Nat) : SchedState → SchedState → Prop :=
  Relation.ReflTransGen (SchedStep cap)

/-- The string needle occurs as a contiguous substring of hay. -/
def containsSub (hay needle : String) : Prop :=
  ∃ a b : List Char, hay.data = a ++ needle.data ++ b

/-- Some log line of the trace contains the needle as a substring. -/
def logsContaining (t : List Event) (needle : String) : Prop :=
  ∃ s, Event.logLine s ∈ t ∧ containsSub s needle

/-- A tap used by the concrete scenarios below. -/
def tapAlpha : Tap := { name := "alpha", priority := 50 }

/-- A verified publisher used by the concrete scenarios below. -/
def pubAlice : PublisherInfo :=
  { name := "Alice", gpg_key := "ABCD1234EF", verified := true }

/-- Options with insecure set (strict_signatures clear). -/
def optsInsecure : InstallOptions :=
  { insecure := true, gpg_keyserver := none, fast_mode := false,
    strict_signatures := false, max_parallel := 0 }

/-- Options with both insecure and strict_signatures set. -/
def optsStrictInsecure : InstallOptions :=
  { insecure := true, gpg_keyserver := none, fast_mode := false,
    strict_signatures := true, max_parallel := 0 }

/-- Scenario for C1: tap alpha provides the package, publisher info
present, PKGBUILD present but PKGBUILD.sig missing. -/
def c1env : InstallEnv :=
  { renv :=
      { found_tap := fun _ _ => some tapAlpha,
        repo_has_package := fun _ _ => false,
        aur_has_exact := fun _ => false,
        flatpak_search_hit := fun _ => false },
    config := { backend_order := ["pacman", "aur", "flatpak"] },
    tapenv :=
      { pubinfo := some pubAlice, sig_exists := false, pkgb_exists := true,
        key_present := true, recv_ok := true, verify_result := none },
    backup_ok := true }

/-- Scenario for C3: same tap scenario with the signature missing. -/
def c3env : InstallEnv :=
  { renv :=
      { found_tap := fun _ _ => some tapAlpha,
        repo_has_package := fun _ _ => false,
        aur_has_exact := fun _ => false,
        flatpak_search_hit := fun _ => false },
    config := { backend_order := ["pacman", "aur", "flatpak"] },
    tapenv :=
      { pubinfo := some pubAlice, sig_exists := false, pkgb_exists := true,
        key_present := true, recv_ok := true, verify_result := none },
    backup_ok := true }

/-- Scenario for C4: the package resolves to the official pacman
repo. -/
def c4env : InstallEnv :=
  { renv :=
      { found_tap := fun _ _ => none,
        repo_has_package := fun _ repo => repo == "core",
        aur_has_exact := fun _ => false,
        flatpak_search_hit := fun _ => false },
    config := { backend_order := ["pacman", "aur", "flatpak"] },
    tapenv :=
      { pubinfo := none, sig_exists := false, pkgb_exists := false,
        key_present := false, recv_ok := false, verify_result := none },
    backup_ok := true }

/-- Scenario for C5: the package resolves to the AUR. -/
def c5env : InstallEnv :=
  { renv :=
      { found_tap := fun _ _ => none,
        repo_has_package := fun _ _ => false,
        aur_has_exact := fun _ => true,
        flatpak_search_hit := fun _ => false },
    config := { backend_order := ["pacman", "aur", "flatpak"] },
    tapenv :=
      { pubinfo := none, sig_exists := false, pkgb_exists := false,
        key_present := false, recv_ok := false, verify_result := none },
    backup_ok := true }

/-- Scenario for C8: no source provides the package. -/
def c8env : InstallEnv :=
  { renv :=
      { found_tap := fun _ _ => none,
        repo_has_package := fun _ _ => false,
        aur_has_exact := fun _ => false,
        flatpak_search_hit := fun _ => false },
    config := { backend_order := ["pacman", "aur", "flatpak"] },
    tapenv :=
      { pubinfo := none, sig_exists := false, pkgb_exists := false,
        key_present := false, recv_ok := false, verify_result := none },
    backup_ok := true }

/-- Resolver oracle for the C7 witness: the AUR has the package, the
official repos have it too. -/
def c7renv : ResolveEnv :=
  { found_tap := fun _ _ => none,
    repo_has_package := fun _ _ => true,
    aur_has_exact := fun _ => true,
    flatpak_search_hit := fun _ => true }

/-- Config for the C7 witness: backend order omits aur. -/
def c7config : GlobalConfig := { backend_order := ["pacman"] }

/-- AUR pipeline scenario where makepkg fails after a good clone. -/
def c6envFail : AurEnv :=
  { clone_result := some true, editor_result := some true,
    makepkg_result := some false, cleanup_result := some true }

/-- AUR pipeline scenario where everything succeeds. -/
def c6envOk : AurEnv :=
  { clone_result := some true, editor_result := some true,
    makepkg_result := some true, cleanup_result := some true }

/-- AUR pipeline scenario for the C10 witness. -/
def c10env : AurEnv :=
  { clone_result := some true, editor_result := some true,
    makepkg_result := some true, cleanup_result := some true }

/-- Four packages, for the C9 counterexample. -/
def pkgsFour : List String := ["a", "b", "c", "d"]


/-- String append acts as list append on the underlying character
data. -/
theorem strDataAppend (s t : String) : (s ++ t).data = s.data ++ t.data := by
  cases s
  cases t
  rfl

/-- A string always contains its own suffix. -/
theorem containsSub_append (x y : String) : containsSub (x ++ y) y := by
  refine ⟨x.data, [], ?_⟩
  rw [strDataAppend]
  simp

/-- Claim C2: for every package and config, resolve_package_source
evaluates candidates in the fixed order tap, official repos, AUR,
Flatpak and returns the first hit, exactly as the spec words it: the
code resolver coincides with the resolver modelled from the spec
sentence. -/
theorem c2_resolver_matches_spec_order (env : ResolveEnv) (pkg : String)
    (forced_tap : Option String) (config : GlobalConfig) :
    resolve_package_source env pkg forced_tap config =
      resolve_package_source_spec env pkg forced_tap config := by
  unfold resolve_package_source resolve_package_source_spec
  cases env.found_tap pkg forced_tap with
  | some tap => rfl
  | none =>
    simp [List.contains]

/-- Claim C7: if the configured backend order does not contain "aur",
resolve_package_source never returns the Aur source, whatever the AUR
index says. -/
theorem c7_no_aur_without_backend (env : ResolveEnv) (pkg : String)
    (forced_tap : Option String) (config : GlobalConfig)
    (h : "aur" ∉ config.backend_order)
    (r : Source × Option String × Nat × Option Tap)
    (hr : resolve_package_source env pkg forced_tap config = some r) :
    r.1 ≠ Source.Aur := by
  unfold resolve_package_source at hr
  cases hfound : env.found_tap pkg forced_tap with
  | some tap =>
    rw [hfound] at hr
    cases hr
    simp
  | none =>
    rw [hfound] at hr
    have h2 : (config.backend_order.contains "aur" && env.aur_has_exact pkg) = false := by
      cases hc : config.backend_order.contains "aur" with
      | false => simp
      | true => exact absurd (List.elem_iff.mp hc) h
    rw [h2] at hr
    by_cases h1 : (config.backend_order.contains "pacman"
        && (env.repo_has_package pkg "core" || env.repo_has_package pkg "extra")) = true
    · rw [if_pos h1] at hr
      cases hr
      simp
    · rw [if_neg h1, if_neg (by simp : ¬false = true)] at hr
      by_cases h3 : (config.backend_order.contains "flatpak"
          && env.flatpak_search_hit pkg) = true
      · rw [if_pos h3] at hr
        cases hr
        simp
      · rw [if_neg h3] at hr
        cases hr

/-- Witness for C7 at a concrete input: config [pacman] omits aur, the
AUR has the package, and the resolver returns the Pacman source. -/
theorem c7_no_aur_without_backend_witness :
    "aur" ∉ c7config.backend_order ∧
      resolve_package_source c7renv "yay" none c7config =
        some (Source.Pacman, none, 20, none) ∧
      (Source.Pacman, (none : Option String), (20 : Nat), (none : Option Tap)).1 ≠
        Source.Aur :=
  ⟨by decide, by decide,
    c7_no_aur_without_backend c7renv "yay" none c7config (by decide)
      (Source.Pacman, none, 20, none) (by decide)⟩


/-- Claim C8: whenever resolve_package_source returns none,
install_with_priority pushes a log line containing "Could not resolve
source for pkg", attempts a rollback, and returns normally (the
embedded function is total: no error escapes to the caller). -/
theorem c8_unresolved_logs_and_rollback (env : InstallEnv) (pkg : String)
    (opts : InstallOptions)
    (h : resolve_package_source env.renv pkg none env.config = none) :
    logsContaining (install_with_priority env pkg opts)
        ("Could not resolve source for " ++ pkg) ∧
      Event.rollback pkg ∈ install_with_priority env pkg opts := by
  unfold install_with_priority
  rw [h]
  constructor
  · exact ⟨"[reap][error] " ++ ("Could not resolve source for " ++ pkg),
      by simp, containsSub_append _ _⟩
  · simp

/-- Witness for C8 at a concrete input: nothing provides
nonexistent-pkg-xyz, the log line and the rollback event occur. -/
theorem c8_unresolved_logs_and_rollback_witness :
    resolve_package_source c8env.renv "nonexistent-pkg-xyz" none c8env.config = none ∧
      (logsContaining
          (install_with_priority c8env "nonexistent-pkg-xyz" InstallOptions.default)
          ("Could not resolve source for " ++ "nonexistent-pkg-xyz") ∧
        Event.rollback "nonexistent-pkg-xyz" ∈
          install_with_priority c8env "nonexistent-pkg-xyz" InstallOptions.default) :=
  ⟨by decide,
    c8_unresolved_logs_and_rollback c8env "nonexistent-pkg-xyz" InstallOptions.default
      (by decide)⟩

/-- Counterexample to claim C3 at a concrete input: tap install of foo
from tap alpha, PKGBUILD.sig missing, opts.strict_signatures = true AND
opts.insecure = true.  The claim says the install must abort; instead
the code logs "Continuing install due to --insecure." and proceeds to
the post-install hooks — strict_signatures does not override
insecure. -/
theorem c3_strict_signatures_ignored_cex :
    Event.logLine "⚠️ Continuing install due to --insecure." ∈
        install_with_priority c3env "foo" optsStrictInsecure ∧
      Event.postHook ∈ install_with_priority c3env "foo" optsStrictInsecure := by
  decide

/-- Claim C3 as amended: install_with_priority never consults
opts.strict_signatures (the field is dead code there): its trace is
identical for every value of the flag, so with insecure set a missing
or failed signature never aborts the install. -/
theorem c3_strict_signatures_no_effect (env : InstallEnv) (pkg : String)
    (opts : InstallOptions) (b : Bool) :
    install_with_priority env pkg
        { opts with strict_signatures := b } =
      install_with_priority env pkg opts := by
  cases opts
  rfl


/-- Claim C1, evaluated at its failing input: tap install of foo from
tap alpha with PKGBUILD.sig missing.  With insecure = false the
pipeline logs a line containing "Aborting install. Use --insecure to
override." and returns early, invoking no build or install step (first
conjunct — this half of the claim holds).  With insecure = true (and
strict_signatures = false) it logs "Continuing install due to
--insecure." but STILL invokes no build or install step: the
Source::Custom arm of install_with_priority contains no build code at
all, contradicting the claim and spec P4 (second conjunct — the code
bug). -/
theorem c1_tap_missing_signature_no_build :
    (logsContaining (install_with_priority c1env "foo" InstallOptions.default)
        "Aborting install. Use --insecure to override." ∧
      (install_with_priority c1env "foo" InstallOptions.default).filter
          Event.isInstallStep = [] ∧
      Event.postHook ∉ install_with_priority c1env "foo" InstallOptions.default) ∧
    (Event.logLine "⚠️ Continuing install due to --insecure." ∈
        install_with_priority c1env "foo" optsInsecure ∧
      (install_with_priority c1env "foo" optsInsecure).filter
          Event.isInstallStep = []) := by
  refine ⟨⟨?_, by decide, by decide⟩, by decide, by decide⟩
  exact ⟨"❌ PKGBUILD.sig missing. Aborting install. Use --insecure to override.",
    by decide, "❌ PKGBUILD.sig missing. ".data, [], by decide⟩

/-- Claim C4, evaluated at its failing input: bash resolves to the
official pacman repo.  The system-mutating install step
(pacman::install) and the backup_package_state call both occur, but no
backup event precedes the first mutation: the snapshot is taken only
at the end of install_with_priority, after the install — the code
contradicts its own comment "Backup before install" and the spec
invariant. -/
theorem c4_backup_after_mutation :
    Event.pacmanInstall "bash" ∈
        install_with_priority c4env "bash" InstallOptions.default ∧
      Event.backup "bash" ∈
        install_with_priority c4env "bash" InstallOptions.default ∧
      Event.backup "bash" ∉
        (install_with_priority c4env "bash" InstallOptions.default).takeWhile
          (fun e => decide (e ≠ Event.pacmanInstall "bash")) := by
  decide

/-- Claim C5, evaluated at its failing input: yay resolves to the AUR.
The PKGBUILD diff (show_pkgbuild_diff) is emitted at the very end of
install_with_priority: both the build/install call (aurInstall) and
the post-install hook occur strictly before the first showDiff event,
contradicting the claim that the diff is shown immediately after Fetch
and before Build, never after the install or the post-install
hooks. -/
theorem c5_diff_after_post_hooks :
    Event.showDiff "yay" ∈
        install_with_priority c5env "yay" InstallOptions.default ∧
      Event.postHook ∈
        (install_with_priority c5env "yay" InstallOptions.default).takeWhile
          (fun e => decide (e ≠ Event.showDiff "yay")) ∧
      Event.aurInstall "yay" ∈
        (install_with_priority c5env "yay" InstallOptions.default).takeWhile
          (fun e => decide (e ≠ Event.showDiff "yay")) := by
  decide


/-- Counterexample to claim C6 at a concrete input: after a successful
clone, makepkg exits non-zero; install_aur_native returns the fatal
CommandFailed error WITHOUT removing the timestamped working directory
— cleanup happens only on success, not on fatal failure. -/
theorem c6_no_cleanup_on_makepkg_failure_cex :
    (install_aur_native c6envFail "foo" InstallOptions.default).1 =
        Except.error (ReapError.CommandFailed "makepkg failed") ∧
      AEvent.removeBuildDir ∉
        (install_aur_native c6envFail "foo" InstallOptions.default).2 := by
  decide

/-- Claim C6 as amended: install_aur_native removes the working
directory exactly when it returns Ok (the success path and the
insecure dry-run path); on every fatal failure — clone spawn error,
clone non-zero exit, makepkg spawn error, makepkg non-zero exit — it
returns the error without removing the directory.  A cleanup failure
is never propagated to the caller: the result and trace are identical
for every outcome of fs::remove_dir_all, whose result the code
discards. -/
theorem c6_cleanup_on_success_only (env : AurEnv) (pkg : String)
    (opts : InstallOptions) (b : Option Bool) :
    (AEvent.removeBuildDir ∈ (install_aur_native env pkg opts).2 ↔
        (install_aur_native env pkg opts).1 = Except.ok ()) ∧
      install_aur_native { env with cleanup_result := b } pkg opts =
        install_aur_native env pkg opts := by
  obtain ⟨cr, er, mr, clr⟩ := env
  constructor
  · match cr with
    | none => simp [install_aur_native]
    | some false => simp [install_aur_native]
    | some true =>
      cases hins : opts.insecure with
      | true => simp [install_aur_native, hins]
      | false =>
        match mr with
        | some true => simp [install_aur_native, hins]
        | some false => simp [install_aur_native, hins]
        | none => simp [install_aur_native, hins]
  · rfl

/-- Witness for the amended C6 at a concrete input: a fully successful
run returns Ok and the trace contains the cleanup. -/
theorem c6_cleanup_on_success_only_witness :
    (install_aur_native c6envOk "foo" InstallOptions.default).1 = Except.ok () ∧
      AEvent.removeBuildDir ∈
        (install_aur_native c6envOk "foo" InstallOptions.default).2 :=
  ⟨by decide,
    (c6_cleanup_on_success_only c6envOk "foo" InstallOptions.default (some false)).1.mpr
      (by decide)⟩

/-- Claim C10: with opts.insecure = true, install_aur_native never
runs makepkg; and after a successful clone it opens the editor,
removes the build directory, and returns Ok — no build or install is
performed on the insecure path. -/
theorem c10_insecure_dry_run (env : AurEnv) (pkg : String)
    (opts : InstallOptions) (hins : opts.insecure = true) :
    AEvent.makepkgRun ∉ (install_aur_native env pkg opts).2 ∧
      (env.clone_result = some true →
        (install_aur_native env pkg opts).1 = Except.ok () ∧
          AEvent.removeBuildDir ∈ (install_aur_native env pkg opts).2 ∧
          AEvent.editorRun ∈ (install_aur_native env pkg opts).2) := by
  obtain ⟨cr, er, mr, clr⟩ := env
  match cr with
  | none => simp [install_aur_native]
  | some false => simp [install_aur_native]
  | some true => simp [install_aur_native, hins]

/-- Witness for C10 at a concrete input: insecure options, successful
clone, the function returns Ok. -/
theorem c10_insecure_dry_run_witness :
    optsInsecure.insecure = true ∧ c10env.clone_result = some true ∧
      (install_aur_native c10env "foo" optsInsecure).1 = Except.ok () :=
  ⟨rfl, rfl, ((c10_insecure_dry_run c10env "foo" optsInsecure rfl).2 rfl).1⟩


/-- Counterexample to claim C9 at a concrete input: with four packages,
parallel_upgrade uses no semaphore at all (its capacity is none), so
the scheduler can reach a state with four install tasks running at
once — exceeding the max_parallel of the InstallOptions::default()
the code hands to every task (0), and a fortiori any bound such as 3;
concurrency is not enforced by a counting semaphore on this path. -/
theorem c9_parallel_bound_cex :
    SchedReachable (parallel_upgrade_cap pkgsFour) ⟨4, 0⟩ ⟨0, 4⟩ ∧
      parallel_upgrade_cap pkgsFour = none ∧
      SchedState.running ⟨0, 4⟩ > bulk_task_opts.max_parallel := by
  refine ⟨?_, rfl, by decide⟩
  have h1 : SchedStep none ⟨4, 0⟩ ⟨3, 1⟩ := .start 3 0 (fun c hc => nomatch hc)
  have h2 : SchedStep none ⟨3, 1⟩ ⟨2, 2⟩ := .start 2 1 (fun c hc => nomatch hc)
  have h3 : SchedStep none ⟨2, 2⟩ ⟨1, 3⟩ := .start 1 2 (fun c hc => nomatch hc)
  have h4 : SchedStep none ⟨1, 3⟩ ⟨0, 4⟩ := .start 0 3 (fun c hc => nomatch hc)
  exact Relation.ReflTransGen.tail
    (Relation.ReflTransGen.tail
      (Relation.ReflTransGen.tail (Relation.ReflTransGen.tail .refl h1) h2) h3) h4

/-- Claim C9 as amended: parallel_install bounds the number of
concurrently running install tasks by the hardcoded semaphore capacity
4 (not by any option), and parallel_upgrade, which has no semaphore,
is bounded only by the number of packages; in the model no transition
cancels a peer task. -/
theorem c9_parallel_bounds (pkgs : List String) (s : SchedState) :
    (SchedReachable (parallel_install_cap pkgs) ⟨pkgs.length, 0⟩ s →
        s.running ≤ parallel_install_max_parallel) ∧
      (SchedReachable (parallel_upgrade_cap pkgs) ⟨pkgs.length, 0⟩ s →
        s.pending + s.running ≤ pkgs.length) := by
  constructor
  · intro h
    induction h with
    | refl => simp
    | tail hab hbc ih =>
      cases hbc with
      | start p r hg =>
        have := hg parallel_install_max_parallel rfl
        simpa using this
      | finish p r =>
        simp only [SchedState.running] at ih ⊢
        omega
  · intro h
    induction h with
    | refl => simp
    | tail hab hbc ih =>
      cases hbc with
      | start p r hg =>
        simp only [SchedState.pending, SchedState.running] at ih ⊢
        omega
      | finish p r =>
        simp only [SchedState.pending, SchedState.running] at ih ⊢
        omega

/-- Witness for the amended C9 at a concrete input: the initial state
of a two-package run is reachable and satisfies both bounds. -/
theorem c9_parallel_bounds_witness :
    SchedState.running ⟨2, 0⟩ ≤ parallel_install_max_parallel ∧
      SchedState.pending ⟨2, 0⟩ + SchedState.running ⟨2, 0⟩ ≤
        (["a", "b"] : List String).length :=
  ⟨(c9_parallel_bounds ["a", "b"] ⟨2, 0⟩).1 .refl,
    (c9_parallel_bounds ["a", "b"] ⟨2, 0⟩).2 .refl⟩

end Reap
